import Mathlib

/-!
Verification of the v5-memory engine core against its specification.

The JavaScript sources under `src/core` are shallowly embedded below:
pure functions become Lean functions, the stores become explicit list
states, JavaScript numbers become `ℝ` (or `ℚ` where no transcendental
function is involved), `Math.exp` becomes `Real.exp`, `Number.toFixed(4)`
becomes floor-based rounding, and the dynamic-language pitfalls that the
code actually hits (reading `.size` from an Array, invoking a number as a
function, JS falsiness of `0` and `""`) are modelled explicitly.
-/

namespace V5

/-! ## A small fragment of JavaScript value semantics

`meta_engine.js` computes `intersection.size / union.size` where
`intersection` is an `Array` (which has `.length` but no `.size`
property), so the numerator is `undefined` and the quotient is `NaN`.
`extractor.js` evaluates `Date.now()()`, calling the number returned by
`Date.now()` as a function, which throws a `TypeError`.  Both behaviours
are represented faithfully. -/

/-- A JavaScript numeric-expression value: a finite number, `NaN`, or
`undefined` (the result of reading a missing property). -/
inductive JsVal where
  | num (q : ℚ)
  | nan
  | undef
deriving DecidableEq, Repr

/-- JavaScript division on `JsVal`: `undefined / n` and `NaN / n` are `NaN`. -/
def jsDiv : JsVal → JsVal → JsVal
  | JsVal.num a, JsVal.num b => if b = 0 then JsVal.nan else JsVal.num (a / b)
  | _, _ => JsVal.nan

/-- JavaScript `v > q` comparison against a number literal: any comparison
with `NaN` (or `undefined`, which coerces to `NaN`) is `false`. -/
def jsGtNum (v : JsVal) (q : ℚ) : Bool :=
  match v with
  | JsVal.num x => decide (q < x)
  | _ => false

/-- Reading the `.size` property from a JavaScript `Array` yields
`undefined`: arrays expose `.length`, not `.size`. -/
def jsArraySize {α : Type} (_l : List α) : JsVal := JsVal.undef

/-- Invoking a `JsVal` as a function.  In the fragment used by this code
base only non-callable values (numbers) ever reach a call position, so the
result is always a `TypeError`, exactly as `Date.now()()` throws. -/
def jsInvoke (_v : JsVal) : Except String JsVal :=
  Except.error "TypeError: value is not a function"

/-- JavaScript `a || b` on numbers: `a` is replaced by `b` when falsy (0). -/
noncomputable def jsOrNum (a b : ℝ) : ℝ := if a = 0 then b else a

/-- Collapse every maximal run of whitespace characters to a single space,
the first step of modelling `String.split(/\s+/)`. -/
def collapseWs : List Char → List Char
  | [] => []
  | [c] => [if c.isWhitespace then ' ' else c]
  | c₁ :: c₂ :: rest =>
    if c₁.isWhitespace && c₂.isWhitespace then collapseWs (c₂ :: rest)
    else (if c₁.isWhitespace then ' ' else c₁) :: collapseWs (c₂ :: rest)

/-- Split a character list at every separator occurrence, keeping empty
boundary pieces, as JavaScript `split` does. -/
def splitOnChar (sep : Char) : List Char → List (List Char)
  | [] => [[]]
  | c :: rest =>
    match splitOnChar sep rest with
    | [] => [[c]]
    | h :: t => if c = sep then [] :: h :: t else (c :: h) :: t

/-- JavaScript `s.split(/\s+/)`: maximal whitespace runs separate the
pieces; a leading or trailing run contributes an empty piece, and the
empty string splits to `[""]`. -/
def jsSplitWs (s : String) : List String :=
  (splitOnChar ' ' (collapseWs s.data)).map fun cs => String.mk cs

/-- JavaScript `toLowerCase` (ASCII case folding suffices for this code
base), implemented by structural recursion over the character list. -/
def jsToLower (s : String) : String := String.mk (s.data.map Char.toLower)

/-- JavaScript `trim`. -/
def jsTrim (s : String) : String :=
  String.mk (((s.data.dropWhile Char.isWhitespace).reverse.dropWhile
    Char.isWhitespace).reverse)

/-- JavaScript `substring(0, n)`. -/
def jsTake (s : String) (n : ℕ) : String := String.mk (s.data.take n)

/-- Split at every single occurrence of a separator drawn from a class of
characters (JavaScript `s.split(/[。！？\n]/)`): consecutive separators
yield empty pieces. -/
def splitOnPred (p : Char → Bool) : List Char → List (List Char)
  | [] => [[]]
  | c :: rest =>
    match splitOnPred p rest with
    | [] => [[c]]
    | h :: t => if p c then [] :: h :: t else (c :: h) :: t

/-- List-of-characters prefix test. -/
def isPrefixList : List Char → List Char → Bool
  | [], _ => true
  | _ :: _, [] => false
  | a :: as, b :: bs => a = b && isPrefixList as bs

/-- List-of-characters infix test, modelling `String.includes`. -/
def isInfixList (needle : List Char) : List Char → Bool
  | [] => isPrefixList needle []
  | c :: rest => isPrefixList needle (c :: rest) || isInfixList needle rest

/-- JavaScript `s.includes(k)`. -/
def strIncludes (s k : String) : Bool := isInfixList k.data s.data

/-- Decide an arbitrary proposition classically into a `Bool`; used to model
JavaScript comparisons inside `filter` predicates over ℝ-valued scores. -/
noncomputable def rdecide (p : Prop) : Bool := @decide p (Classical.propDecidable p)

/-! ## Data model (`MemoryRecord`, spec §3)

JavaScript objects acquire fields dynamically; fields that only some code
paths write (`meta.status`, `meta.storage_tier`, `body.original_text`, …)
are modelled as `Option`s defaulting to `none`. -/

/-- `meta.dimensions` plus the two fields the compressor adds. -/
structure Dimensions where
  confidence : ℝ := 0.7
  importance : ℝ := 0.6
  time_decay : ℝ := 0.8
  recall_priority : ℝ := 0.7
  compressed : Bool := false
  compression_level : Option ℕ := none

/-- `meta.relations`. -/
structure Relations where
  supersedes : Option String := none
  related_to : List String := []
  conversation_id : Option String := none
  turn_id : Option String := none

/-- `meta.lifecycle`.  Timestamps are milliseconds since the epoch
(`new Date(iso).getTime()` is modelled as the stored integer itself). -/
structure Lifecycle where
  createdAt : ℤ := 0
  updatedAt : ℤ := 0
  lastUsedAt : Option ℤ := none
  expiresAt : Option ℤ := none
  ttl : ℤ := 0
  status : String := "active"

/-- `meta.security`. -/
structure SecurityInfo where
  sensitivity : String := "normal"
  masked : Bool := false
  origin : String := "auto"

/-- `meta`.  `nameSpace` models the source's `namespace` partition key
(a reserved word in Lean).  `status` is the stray top-level field that
`cleanup`, `write` and `handleConflict` assign instead of
`lifecycle.status`; `storage_tier` and `last_migrated` are written by the
tiered store. -/
structure MetaData where
  id : String
  version : String := "v1.0"
  platform : String := "unknown"
  nameSpace : String := "default"
  tags : List String := []
  dimensions : Dimensions := {}
  relations : Relations := {}
  lifecycle : Lifecycle := {}
  security : SecurityInfo := {}
  status : Option String := none
  storage_tier : Option String := none
  last_migrated : Option ℤ := none

/-- `body`.  `original_text`, `compression_level`, `keywords`, `summary`
and `compressed` appear once a record passes through the compressor. -/
structure Body where
  type : String := "episodic"
  text : String := ""
  raw_content : String := ""
  original_text : Option String := none
  compression_level : Option ℕ := none
  keywords : Option (List String) := none
  summary : Option String := none
  compressed : Option Bool := none

/-- A memory record. -/
structure Memory where
  meta : MetaData
  body : Body

/-! ## Scorer (`src/core/engine/scorer.js`) -/

/-- Characters kept by `normalizeText`'s `replace(/[^\w\s一-鿿]/g, ' ')`:
ASCII word characters, whitespace, and the CJK unified range. -/
def keepChar (c : Char) : Bool :=
  c.isAlphanum || c = '_' || c.isWhitespace || (0x4e00 ≤ c.toNat && c.toNat ≤ 0x9fff)

/-- `normalizeText`: lower-case, replace non-word characters by spaces,
split on whitespace and keep tokens of length above one. -/
def normalizeText (s : String) : List String :=
  (jsSplitWs (String.mk ((jsToLower s).data.map fun c => if keepChar c then c else ' '))).filter
    fun w => 1 < w.length

/-- `calculateKeywordSimilarity`: Jaccard similarity over the two
normalized token sets; empty input or empty token set gives 0. -/
def calculateKeywordSimilarity (text1 text2 : String) : ℚ :=
  if text1 = "" ∨ text2 = "" then 0
  else
    let words1 := (normalizeText text1).dedup
    let words2 := (normalizeText text2).dedup
    if words1.length = 0 ∨ words2.length = 0 then 0
    else
      let inter := (words1.filter fun x => words2.contains x).dedup
      let union := (words1 ++ words2).dedup
      (inter.length : ℚ) / (union.length : ℚ)

/-- `calculateTimeDecay`: `0.5 ^ (daysPassed / halfLife)` with
`daysPassed = (now - lastUsed) / 86400000`; a missing timestamp decays
nothing (factor 1). -/
noncomputable def calculateTimeDecay (now : ℤ) (lastUsed : Option ℤ) (halfLife : ℝ) : ℝ :=
  match lastUsed with
  | none => 1
  | some t => ((1 : ℝ) / 2) ^ ((((now - t : ℤ) : ℝ) / 86400000) / halfLife)

/-- `parseFloat(p.toFixed(4))` for the non-negative probabilities this code
produces: round half up to 4 decimal places. -/
noncomputable def round4 (p : ℝ) : ℝ := (⌊p * 10000 + 1 / 2⌋ : ℤ) / 10000

/-- `v5Formula` (alias `v5BarrierEquation`): clamp the input to [0,1],
apply the sigmoid `1 / (1 + exp (-2γ(input - B)))` and round to 4 decimal
places. -/
noncomputable def v5Formula (input gamma barrier : ℝ) : ℝ :=
  let normalizedInput := max 0 (min 1 input)
  let exponent := -2 * gamma * (normalizedInput - barrier)
  round4 (1 / (1 + Real.exp exponent))

/-- `calculateRecallScore` (scorer variant): keyword 30%, priority 30%,
decay 20%, platform 20%, then `v5Formula`.  `recall_priority || 0.5`
falls back when the dimension is falsy. -/
noncomputable def calculateRecallScore (input : String) (m : Memory) (now : ℤ)
    (gamma barrier : ℝ) : ℝ :=
  let keywordScore : ℝ := (calculateKeywordSimilarity input m.body.text : ℚ)
  let timeDecay := calculateTimeDecay now m.meta.lifecycle.lastUsedAt 7
  let priorityScore := jsOrNum m.meta.dimensions.recall_priority 0.5
  let platformWeight : ℝ := if m.meta.platform = "deepseek" then 1 else 0.9
  v5Formula (keywordScore * 0.3 + priorityScore * 0.3 + timeDecay * 0.2 +
    platformWeight * 0.2) gamma barrier

/-! ## Store (`src/core/storage`, `FileSystemStore` semantics)

The engine's `V5MemoryStore` delegates to a keyed record collection; it is
modelled as a list of records with id-keyed overwrite. -/

/-- Query filters: only the keys `matchesFilters` inspects. -/
structure Filters where
  status : Option String := none
  platform : Option String := none
  nameSpace : Option String := none
  type : Option String := none

/-- `FileSystemStore.matchesFilters`: the `status` filter reads
`meta.lifecycle.status` (not the stray `meta.status`). -/
def matchesFilters (m : Memory) (f : Filters) : Bool :=
  (match f.status with | none => true | some v => m.meta.lifecycle.status = v) &&
  (match f.platform with | none => true | some v => m.meta.platform = v) &&
  (match f.nameSpace with | none => true | some v => m.meta.nameSpace = v) &&
  (match f.type with | none => true | some v => m.body.type = v)

/-- `query(filters)`: in-memory predicate filter over the stored records. -/
def query (store : List Memory) (f : Filters) : List Memory :=
  store.filter fun m => matchesFilters m f

/-- `update(memory)`: overwrite the record (the JSON document) with the
same `meta.id`. -/
def storeUpdate (store : List Memory) (m : Memory) : List Memory :=
  store.map fun x => if x.meta.id = m.meta.id then m else x

/-- `FileSystemStore.add`: file overwrite keyed by `meta.id` (records
without an id get a generated one; all records in this model carry ids). -/
def storeAdd (store : List Memory) (m : Memory) : List Memory :=
  if store.any fun x => x.meta.id = m.meta.id then storeUpdate store m
  else store ++ [m]

/-- `FileSystemStore.textSimilarity`: Jaccard similarity over
whitespace-token sets.  This variant correctly uses the array length for
the intersection, unlike its meta-engine sibling. -/
def fsTextSimilarity (a b : String) : ℚ :=
  let setA := (jsSplitWs (jsToLower a)).dedup
  let setB := (jsSplitWs (jsToLower b)).dedup
  let inter := setA.filter fun x => setB.contains x
  let union := (setA ++ setB).dedup
  (inter.length : ℚ) / (union.length : ℚ)

/-! ## MetaEngine (`src/core/engine/meta_engine.js`) -/

/-- Per-type injection budget (`config.budget`). -/
structure Budget where
  persona : ℕ := 3
  core : ℕ := 4
  episodic : ℕ := 6

/-- The engine configuration fields the embedded operations consult. -/
structure Config where
  gamma : ℝ := 0.85
  barrier : ℝ := 0.5
  recallThreshold : ℝ := 0.5
  writeThreshold : ℝ := 0.6
  platform : String := "deepseek"
  nameSpace : String := "default"
  budget : Budget := {}

/-- A record paired with the `recallScore` field the recall phase attaches. -/
abbrev Scored := Memory × ℝ

/-- `allocateBudget`: bucket the scored pool by `body.type` for the three
budgeted types, truncate each bucket to its budget, and concatenate in
fixed order.  Types outside the three buckets are dropped. -/
def allocateBudget (scored : List Scored) (budget : Budget) : List Scored :=
  ((scored.filter fun p => p.1.body.type = "persona").take budget.persona) ++
  ((scored.filter fun p => p.1.body.type = "core").take budget.core) ++
  ((scored.filter fun p => p.1.body.type = "episodic").take budget.episodic)

/-- `V5MetaEngine.recall` (`recall` itself is a Mathlib command name):
query active records in scope, score with the scorer's
`calculateRecallScore`, filter by `recallScore >= recallThreshold`,
sort descending by score, and apply `allocateBudget`. -/
noncomputable def engineRecall (cfg : Config) (now : ℤ) (input : String)
    (store : List Memory) : List Scored :=
  let memories := query store
    { platform := some cfg.platform, nameSpace := some cfg.nameSpace,
      status := some "active" }
  let scored := memories.map fun m =>
    ((m, calculateRecallScore input m now cfg.gamma cfg.barrier) : Scored)
  let filtered := (scored.filter fun p => rdecide (cfg.recallThreshold ≤ p.2)).mergeSort
    fun a b => rdecide (b.2 ≤ a.2)
  allocateBudget filtered cfg.budget

/-- The number of records of a given `body.type` in a scored pool. -/
def countTypeS (l : List Scored) (t : String) : ℕ :=
  (l.filter fun p => p.1.body.type = t).length

/-- The per-type counters `cropMemories` keeps (`used`). -/
structure UsedCount where
  persona : ℕ := 0
  core : ℕ := 0
  episodic : ℕ := 0

/-- Reading `used[type]`: `undefined` (`none`) for any other key. -/
def usedGet (u : UsedCount) (t : String) : Option ℕ :=
  if t = "persona" then some u.persona
  else if t = "core" then some u.core
  else if t = "episodic" then some u.episodic
  else none

/-- Incrementing `used[type]++` for one of the three tracked keys. -/
def usedInc (u : UsedCount) (t : String) : UsedCount :=
  if t = "persona" then { u with persona := u.persona + 1 }
  else if t = "core" then { u with core := u.core + 1 }
  else if t = "episodic" then { u with episodic := u.episodic + 1 }
  else u

/-- Reading `budget[type]`: `undefined` (`none`) for any other key. -/
def budgetGet (b : Budget) (t : String) : Option ℕ :=
  if t = "persona" then some b.persona
  else if t = "core" then some b.core
  else if t = "episodic" then some b.episodic
  else none

/-- One step of `cropMemories`: `mem.body?.type || 'episodic'` coerces a
falsy (empty) type to `episodic`; `budget[type] || 6` defaults a missing
or zero budget entry; `used[type] < bound` is `false` when `used[type]`
is `undefined`, so unrecognized non-empty types are never pushed. -/
def cropGo (b : Budget) : List Scored → UsedCount → List Scored
  | [], _ => []
  | p :: rest, u =>
    let t := if p.1.body.type = "" then "episodic" else p.1.body.type
    let bound := match budgetGet b t with
      | some v => if v = 0 then 6 else v
      | none => 6
    match usedGet u t with
    | some uv =>
      if uv < bound then p :: cropGo b rest (usedInc u t) else cropGo b rest u
    | none => cropGo b rest u

/-- `cropMemories`: crop a sorted scored pool by the per-type budget. -/
def cropMemories (cfg : Config) (sortedMemories : List Scored) : List Scored :=
  cropGo cfg.budget sortedMemories {}

/-- `V5MetaEngine.textSimilarity`: the token sets are built correctly, but
the intersection is a JavaScript `Array` and the code reads
`intersection.size` — a property arrays do not have — so for non-empty
inputs the quotient is `undefined / union.size = NaN`. -/
def textSimilarityMeta (a b : String) : JsVal :=
  if a = "" ∨ b = "" then JsVal.num 0
  else
    let setA := (jsSplitWs (jsToLower a)).dedup
    let setB := (jsSplitWs (jsToLower b)).dedup
    let inter := setA.filter fun x => setB.contains x
    let union := (setA ++ setB).dedup
    if 0 < union.length then jsDiv (jsArraySize inter) (JsVal.num union.length)
    else JsVal.num 0

/-- One pass of `handleConflict`'s loop over the active records in scope:
on the first record with `similarity > 0.8`, link the version chain
(`memory.meta.relations.supersedes`), assign the stray `existing.meta.status`
field, and update the store. -/
def handleConflictGo (mem : Memory) (store : List Memory) :
    List Memory → List Memory × Memory × Bool
  | [] => (store, mem, false)
  | existing :: rest =>
    if jsGtNum (textSimilarityMeta mem.body.text existing.body.text) (8 / 10) then
      let mem2 : Memory :=
        { mem with meta := { mem.meta with relations :=
            { mem.meta.relations with supersedes := some existing.meta.id } } }
      let existing2 : Memory :=
        { existing with meta := { existing.meta with status := some "superseded" } }
      (storeUpdate store existing2, mem2, true)
    else handleConflictGo mem store rest

/-- `handleConflict(memory)`: scan the active records in the record's
{platform, namespace} scope for a `> 0.8`-similar one and supersede it.
Returns the updated store, the (possibly link-updated) new record, and
whether a conflict was resolved. -/
def handleConflict (mem : Memory) (store : List Memory) :
    List Memory × Memory × Bool :=
  let all := query store
    { platform := some mem.meta.platform, nameSpace := some mem.meta.nameSpace,
      status := some "active" }
  handleConflictGo mem store all

/-- One step of `cleanup`'s sweep: skip records whose `lifecycle.status`
is `deleted`; when `expiresAt` has passed, assign the stray `meta.status`
field (the source writes `mem.meta.status`, not
`mem.meta.lifecycle.status`) and update the store. -/
def cleanupStep (now : ℤ) (store : List Memory) (mem : Memory) : List Memory :=
  if mem.meta.lifecycle.status = "deleted" then store
  else
    match mem.meta.lifecycle.expiresAt with
    | some t =>
      if t < now then
        storeUpdate store { mem with meta := { mem.meta with status := some "expired" } }
      else store
    | none => store

/-- `cleanup()`: sweep every record in the engine's scope. -/
def cleanup (cfg : Config) (now : ℤ) (store : List Memory) : List Memory :=
  (query store { platform := some cfg.platform, nameSpace := some cfg.nameSpace }).foldl
    (cleanupStep now) store

/-! ### `processTurn`

The four phases are injected as `Except`-valued computations (a thrown
JavaScript exception is `Except.error`).  The injection payload is
abstracted to a record list; only control flow and error accumulation
matter here.  The source wraps all four phases in a single `try` block
whose `catch` appends one `{phase: 'processTurn', …}` entry. -/

/-- An entry of the turn result's `errors` list. -/
structure TurnError where
  phase : String
  error : String

/-- The accumulating result object of `processTurn`. -/
structure TurnResult where
  input : String
  response : String
  extracted : List Memory := []
  recalled : List Scored := []
  injected : List Scored := []
  written : List Memory := []
  errors : List TurnError := []

/-- `processTurn`: recall, inject, extract, write in order inside one
`try`; the first phase to throw jumps to the `catch`, which records the
error and leaves every later phase unexecuted. -/
def processTurn (input response : String)
    (recallP : Except String (List Scored))
    (injectP : List Scored → Except String (List Scored))
    (extractP : Except String (List Memory))
    (writeP : List Memory → Except String (List Memory)) : TurnResult :=
  let base : TurnResult := { input := input, response := response }
  match recallP with
  | Except.error e => { base with errors := [⟨"processTurn", e⟩] }
  | Except.ok recd =>
    match injectP recd with
    | Except.error e => { base with recalled := recd, errors := [⟨"processTurn", e⟩] }
    | Except.ok inj =>
      match extractP with
      | Except.error e =>
        { base with recalled := recd, injected := inj, errors := [⟨"processTurn", e⟩] }
      | Except.ok ext =>
        match writeP ext with
        | Except.error e =>
          { base with
            recalled := recd
            injected := inj
            extracted := ext
            errors := [⟨"processTurn", e⟩] }
        | Except.ok w =>
          { base with
            recalled := recd
            injected := inj
            extracted := ext
            written := w }

/-! ## Retriever (`retrieveMemories` and its private `calculateRecallScore`) -/

/-- The default `typePriority` table; lookups on other keys are
`undefined` (`none`). -/
noncomputable def defaultTypePriority : String → Option ℝ :=
  fun t =>
    if t = "pinned" then some 3
    else if t = "persona" then some 2
    else if t = "core" then some (3 / 2)
    else if t = "episodic" then some 1
    else none

/-- `typePriority[type] || d`: a missing (or zero) entry falls back to `d`. -/
noncomputable def tpGet (tp : String → Option ℝ) (t : String) (d : ℝ) : ℝ :=
  match tp t with
  | some v => if v = 0 then d else v
  | none => d

/-- The retriever's private `calculateRecallScore`: keyword 35%,
`recall_priority` 25%, time decay 20%, platform constant 10%, and the
type priority normalized by 3 at 10%.  The raw weighted sum is returned
without activation. -/
noncomputable def retrieverRecallScore (input : String) (m : Memory) (now : ℤ)
    (tp : String → Option ℝ) : ℝ :=
  let keywordScore : ℝ := (calculateKeywordSimilarity input m.body.text : ℚ)
  let timeScore := calculateTimeDecay now m.meta.lifecycle.lastUsedAt 7
  let typeScore := tpGet tp m.body.type 1
  let priorityScore := jsOrNum m.meta.dimensions.recall_priority 0.5
  let platformWeight : ℝ := 1
  keywordScore * 0.35 + priorityScore * 0.25 + timeScore * 0.2 +
    platformWeight * 0.1 + (typeScore / 3) * 0.1

/-- Configuration consumed by `retrieveMemories`. -/
structure RetrieveConfig where
  gamma : ℝ := 0.85
  barrier : ℝ := 0.5
  threshold : ℝ := 0.5
  maxResults : ℕ := 20

/-- A record annotated with `recallScore` (raw) and `v5Probability`. -/
abbrev Retrieved := Memory × ℝ × ℝ

/-- The three-way sort comparator of `retrieveMemories` (score difference
above 0.1, then `typePriority[·] || 0`, then most recent `lastUsedAt`,
with a missing date read as the epoch). -/
noncomputable def retrieveCmp (tp : String → Option ℝ) (a b : Retrieved) : ℝ :=
  if 0.1 < |b.2.1 - a.2.1| then b.2.1 - a.2.1
  else
    let aP := (tp a.1.body.type).getD 0
    let bP := (tp b.1.body.type).getD 0
    if bP ≠ aP then bP - aP
    else ((b.1.meta.lifecycle.lastUsedAt.getD 0 : ℤ) : ℝ) -
      ((a.1.meta.lifecycle.lastUsedAt.getD 0 : ℤ) : ℝ)

/-- `retrieveMemories`: score every record (attaching both the raw score
and its activation image), filter by `recallScore >= threshold` — the RAW
score —, sort by the three-way comparator, and truncate to `maxResults`. -/
noncomputable def retrieveMemories (cfg : RetrieveConfig) (now : ℤ) (input : String)
    (memories : List Memory) (tp : String → Option ℝ) : List Retrieved :=
  if input = "" ∨ memories.length = 0 then []
  else
    let scored : List Retrieved := memories.map fun m =>
      let recallScore := retrieverRecallScore input m now tp
      (m, recallScore, v5Formula recallScore cfg.gamma cfg.barrier)
    let filtered := scored.filter fun p => rdecide (cfg.threshold ≤ p.2.1)
    let sorted := filtered.mergeSort fun a b => rdecide (retrieveCmp tp a b ≤ 0)
    sorted.take cfg.maxResults

/-- Modelled from the spec: the recall score as §4.1 words it — a weighted
sum of keyword overlap (35%), the `recall_priority` dimension (25%),
exponential time decay (20%) and a platform-weight constant (10%), plus a
normalized type-priority term (10%). -/
noncomputable def specRecallRaw (input : String) (m : Memory) (now : ℤ)
    (platformWeight typeNorm : ℝ) : ℝ :=
  (calculateKeywordSimilarity input m.body.text : ℚ) * 0.35 +
    jsOrNum m.meta.dimensions.recall_priority 0.5 * 0.25 +
    calculateTimeDecay now m.meta.lifecycle.lastUsedAt 7 * 0.2 +
    platformWeight * 0.1 + typeNorm * 0.1

/-! ## Compressor (`src/core/compression/compressor.js`) -/

/-- `COMPRESSION_LEVELS`: NONE 0, LIGHT 1, MEDIUM 2, HEAVY 3, SUMMARY 4. -/
def LEVEL_NONE : ℕ := 0

/-- Tokenizer shared by `KeywordExtractor.extract` (same pipeline as the
scorer's `normalizeText`). -/
def kwTokenize (text : String) : List String := normalizeText text

/-- Word-frequency accumulation in first-occurrence order. -/
def freqList : List String → List (String × ℕ) → List (String × ℕ)
  | [], acc => acc
  | w :: rest, acc =>
    if acc.any fun p => p.1 = w then
      freqList rest (acc.map fun p => if p.1 = w then (p.1, p.2 + 1) else p)
    else freqList rest (acc ++ [(w, 1)])

/-- `KeywordExtractor.extract(text, count)`: token frequencies sorted
descending (stably), truncated to `count` words. -/
def keywordExtract (text : String) (count : ℕ) : List String :=
  (((freqList (kwTokenize text) []).mergeSort fun a b => b.2 ≤ a.2).take count).map
    fun p => p.1

/-- `text.split(/[。！？\n]/)`. -/
def splitSentences (text : String) : List String :=
  (splitOnPred (fun c => c = '。' || c = '！' || c = '？' || c = '\n') text.data).map
    fun cs => String.mk cs

/-- `scoreSentence`: length band, digits, domain terms, leading markers.
All weights are rational, so the score is computed in ℚ. -/
def scoreSentence (sentence : String) : ℚ :=
  let len := sentence.length
  let s1 : ℚ := if 10 < len ∧ len < 100 then 3 / 10 else if 100 ≤ len then 1 / 10 else 0
  let s2 : ℚ := if sentence.data.any fun c => c.isDigit then 2 / 10 else 0
  let s3 : ℚ :=
    if ["算法", "模型", "公式", "实验", "数据"].any fun k => strIncludes sentence k
    then 3 / 10 else 0
  let s4 : ℚ :=
    if ["首先", "第一", "关键", "重要"].any fun k => strIncludes sentence k
    then 2 / 10 else 0
  s1 + s2 + s3 + s4

/-- `extractKeySentences(text, level)`: sentences longer than 5 after
trimming, each scored and sorted descending, keeping
`ceil(n * (1 - level * 0.2))` of them. -/
def extractKeySentences (text : String) (level : ℕ) : List String :=
  let sentences := (splitSentences text).filter fun s => 5 < (jsTrim s).length
  let sorted := (sentences.map fun s => (s, scoreSentence s)).mergeSort
    fun a b => b.2 ≤ a.2
  let count := (((sentences.length : ℚ) * (1 - (level : ℚ) * (2 / 10))).ceil).toNat
  (sorted.take count).map fun p => p.1

/-- `compressLight`: keep keyword-bearing sentences, else the first 70%
of the text (`substring(0, ceil(len * 0.7))`). -/
def compressLight (text : String) (keywords : List String) : String :=
  let sentences := splitSentences text
  let importantSentences := sentences.filter fun s =>
    keywords.any fun k => strIncludes s k
  if importantSentences.length ≠ 0 then
    String.intercalate "。" importantSentences ++ "。"
  else jsTake text ((7 * text.length + 9) / 10)

/-- `compressMedium`: two key sentences after a bracketed keyword list. -/
def compressMedium (_text : String) (keywords : List String)
    (keySentences : List String) : String :=
  let result := String.intercalate "。" (keySentences.take 2)
  let kwText := "[关键词: " ++ String.intercalate ", " (keywords.take 3) ++ "]"
  kwText ++ " " ++ result

/-- `compressHeavy`: first key sentence after two keywords, truncated to
`summaryMaxLength` (100). -/
def compressHeavy (_text : String) (keywords : List String)
    (keySentences : List String) : String :=
  let firstKey := keySentences.headD ""
  let kwText := "[关键词: " ++ String.intercalate ", " (keywords.take 2) ++ "]"
  jsTake (kwText ++ " " ++ firstKey) 100

/-- `generateSummary`: two keywords and a 50-character preview. -/
def generateSummary (text : String) (keywords : List String) : String :=
  "[" ++ String.intercalate ", " (keywords.take 2) ++ "] " ++ jsTake text 50 ++ "..."

/-- `evaluateImportance`: usage frequency (`memory.usageCount || 0`, a
field no record in this code base carries, hence 0), type weight, 30-day
half-life decay, and a sensitivity damping factor, capped at 1. -/
noncomputable def evaluateImportance (now : ℤ) (m : Memory) : ℝ :=
  let lastUsed : ℤ := m.meta.lifecycle.lastUsedAt.getD 0
  let daysSinceUse : ℝ := ((now - lastUsed : ℤ) : ℝ) / 86400000
  let usageScore : ℝ := min (0 / 10) 0.4
  let typeWeight : ℝ :=
    if m.body.type = "pinned" then 1
    else if m.body.type = "persona" then 0.8
    else if m.body.type = "core" then 0.6
    else if m.body.type = "episodic" then 0.4
    else 0.3
  let timeDecay : ℝ := ((1 : ℝ) / 2) ^ (daysSinceUse / 30)
  let score := usageScore + typeWeight + timeDecay * 0.3
  let score := if m.meta.security.sensitivity = "highly_sensitive" then score * 0.7
    else score
  min score 1

/-- `determineCompressionLevel`: importance bands to levels 0–4. -/
noncomputable def determineCompressionLevel (now : ℤ) (m : Memory) : ℕ :=
  let importance := evaluateImportance now m
  if 0.7 < importance then 0
  else if 0.5 < importance then 1
  else if 0.3 < importance then 2
  else if 0.15 < importance then 3
  else 4

/-- The effective compression level of `compress(memory, level)`:
`level || this.determineCompressionLevel(memory)` falls back when `level`
is `null` or the falsy `0`. -/
noncomputable def effectiveLevel (now : ℤ) (m : Memory) (level : Option ℕ) : ℕ :=
  match level with
  | none => determineCompressionLevel now m
  | some 0 => determineCompressionLevel now m
  | some l => l

/-- `compress(memory, level)`: empty text returns the record unchanged;
effective level 0 (NONE) returns the record unchanged; otherwise the
compressed body keeps the original text in `body.original_text` and the
importance is re-evaluated into the dimensions. -/
noncomputable def compress (now : ℤ) (m : Memory) (level : Option ℕ) : Memory :=
  let text := m.body.text
  if text = "" then m
  else
    let compressionLevel := effectiveLevel now m level
    if compressionLevel = 0 then m
    else
      let keywords := keywordExtract text 5
      let keySentences := extractKeySentences text compressionLevel
      let compressedText :=
        if compressionLevel = 1 then compressLight text keywords
        else if compressionLevel = 2 then compressMedium text keywords keySentences
        else if compressionLevel = 3 then compressHeavy text keywords keySentences
        else if compressionLevel = 4 then generateSummary text keywords
        else text
      { m with
        body := { m.body with
          text := compressedText
          original_text := some text
          compression_level := some compressionLevel
          keywords := some keywords }
        meta := { m.meta with
          dimensions := { m.meta.dimensions with
            importance := evaluateImportance now m
            compressed := true
            compression_level := some compressionLevel } } }

/-- `decompress(memory)`: restore `body.text` from `body.original_text`
when present; otherwise return the record unchanged. -/
def decompress (m : Memory) : Memory :=
  match m.body.original_text with
  | none => m
  | some t =>
    { m with
      body := { m.body with
        text := t
        compressed := some false } }

/-! ## Hierarchical storage (`src/core/storage/hierarchical.js`)

The hot tier is the in-memory `Map` cache; the warm and cold tiers are
`FileSystemStore`s.  `rebuildCache` mirrors warm/cold records into the
cache at `init`; records later migrated down by the compression cycle are
removed from the cache without being mirrored back. -/

/-- `new Map()` lookup. -/
def cacheLookup (cache : List (String × Memory)) (id : String) : Option Memory :=
  (cache.find? fun p => p.1 = id).map fun p => p.2

/-- `Map.set`: overwrite in place when the key exists, append otherwise. -/
def cacheSet (cache : List (String × Memory)) (id : String) (m : Memory) :
    List (String × Memory) :=
  if cache.any fun p => p.1 = id then
    cache.map fun p => if p.1 = id then (id, m) else p
  else cache ++ [(id, m)]

/-- `Map.delete`. -/
def cacheDelete (cache : List (String × Memory)) (id : String) :
    List (String × Memory) :=
  cache.filter fun p => p.1 ≠ id

/-- `FileSystemStore.get` by id. -/
def storeGetById (store : List Memory) (id : String) : Option Memory :=
  store.find? fun m => m.meta.id = id

/-- `FileSystemStore.delete` by id. -/
def storeDelete (store : List Memory) (id : String) : List Memory :=
  store.filter fun m => m.meta.id ≠ id

/-- `STORAGE_TIERS.HOT.maxAge`: 7 days in milliseconds. -/
def HOT_MAX_AGE : ℤ := 7 * 24 * 60 * 60 * 1000

/-- `STORAGE_TIERS.WARM.maxAge`: 30 days in milliseconds. -/
def WARM_MAX_AGE : ℤ := 30 * 24 * 60 * 60 * 1000

/-- The tiered store state: the hot cache plus the warm and cold file
stores, with the `autoCompress` configuration flag. -/
structure HStorage where
  hotCache : List (String × Memory) := []
  warm : List Memory := []
  cold : List Memory := []
  autoCompress : Bool := true

/-- `determineTier`: pure function of the age since `lastUsedAt` (a
missing timestamp reads as `now`, hence age 0). -/
def determineTier (now : ℤ) (m : Memory) : String :=
  let lastUsed := m.meta.lifecycle.lastUsedAt.getD now
  let age := now - lastUsed
  if age < HOT_MAX_AGE then "hot"
  else if age < WARM_MAX_AGE then "warm"
  else "cold"

/-- `getCompressionLevel`: hot → NONE (0), warm → MEDIUM (2),
cold → SUMMARY (4), anything else → MEDIUM. -/
def getCompressionLevel (tier : String) : ℕ :=
  if tier = "hot" then 0
  else if tier = "warm" then 2
  else if tier = "cold" then 4
  else 2

/-- `storeToTier(memory, tier)`: optionally compress for the tier, stamp
`storage_tier` and `last_migrated`, and store in the tier's backend (the
hot tier is the cache). -/
noncomputable def storeToTier (now : ℤ) (st : HStorage) (m : Memory)
    (tier : String) : HStorage × Memory :=
  let processed := if st.autoCompress then compress now m (some (getCompressionLevel tier))
    else m
  let processed := { processed with
    meta := { processed.meta with
      storage_tier := some tier
      last_migrated := some now } }
  if tier = "hot" then
    ({ st with hotCache := cacheSet st.hotCache processed.meta.id processed }, processed)
  else if tier = "warm" then
    ({ st with warm := storeAdd st.warm processed }, processed)
  else
    ({ st with cold := storeAdd st.cold processed }, processed)

/-- `HierarchicalStorage.add`: compute the tier, store there, and mirror
the stored record into the cache. -/
noncomputable def hstoreAdd (now : ℤ) (st : HStorage) (m : Memory) :
    HStorage × Memory :=
  let tier := determineTier now m
  let (st1, stored) := storeToTier now st m tier
  ({ st1 with hotCache := cacheSet st1.hotCache stored.meta.id stored }, stored)

/-- `migrateToTier(id, targetTier)`: a no-op unless the record is in the
hot cache; otherwise delete it from its current tier and re-store it at
the target tier. -/
noncomputable def migrateToTier (now : ℤ) (st : HStorage) (id targetTier : String) :
    HStorage :=
  match cacheLookup st.hotCache id with
  | none => st
  | some currentMem =>
    let currentTier := currentMem.meta.storage_tier.getD "hot"
    if currentTier = targetTier then st
    else
      let st1 :=
        if currentTier = "hot" then { st with hotCache := cacheDelete st.hotCache id }
        else if currentTier = "warm" then { st with warm := storeDelete st.warm id }
        else { st with cold := storeDelete st.cold id }
      (storeToTier now st1 currentMem targetTier).1

/-- `touch(id)`: stamp `lastUsedAt = now` on the cached record (an
in-place mutation, modelled by rewriting the cache entry) and migrate if
the freshly computed tier differs from the recorded `storage_tier`. -/
noncomputable def touch (now : ℤ) (st : HStorage) (id : String) : HStorage :=
  match cacheLookup st.hotCache id with
  | none => st
  | some mem =>
    let mem2 := { mem with
      meta := { mem.meta with
        lifecycle := { mem.meta.lifecycle with lastUsedAt := some now } } }
    let st1 := { st with hotCache := cacheSet st.hotCache id mem2 }
    let newTier := determineTier now mem2
    if mem2.meta.storage_tier ≠ some newTier then migrateToTier now st1 id newTier
    else st1

/-- `HierarchicalStorage.get(id)`: a cached record is touched and
returned; otherwise the warm (then cold) store is consulted,
`migrateToTier` is invoked, and the result is read back from the hot
cache — which `migrateToTier` never populated when the record was not
cached, so that read yields `undefined`. -/
noncomputable def hstoreGet (now : ℤ) (st : HStorage) (id : String) :
    HStorage × Option Memory :=
  match cacheLookup st.hotCache id with
  | some mem =>
    let st1 := touch now st id
    (st1, some ((cacheLookup st1.hotCache id).getD mem))
  | none =>
    match storeGetById st.warm id with
    | some _ =>
      let st1 := migrateToTier now st id "hot"
      (st1, cacheLookup st1.hotCache id)
    | none =>
      match storeGetById st.cold id with
      | some _ =>
        let st1 := migrateToTier now st id "warm"
        (st1, cacheLookup st1.hotCache id)
      | none => (st, none)

/-- `runCompressionCycle`: over a snapshot of the cached records, migrate
every record whose recorded tier differs from its freshly computed tier. -/
noncomputable def runCompressionCycle (now : ℤ) (st : HStorage) : HStorage :=
  (st.hotCache.map fun p => p.2).foldl
    (fun s mem =>
      let currentTier := mem.meta.storage_tier.getD "hot"
      let targetTier := determineTier now mem
      if currentTier ≠ targetTier then migrateToTier now s mem.meta.id targetTier
      else s)
    st

/-! ## Extractor (`src/core/engine/extractor.js`) -/

/-- An extraction candidate. -/
structure Candidate where
  type : String := "episodic"
  text : String := ""
  keyInfo : String := ""
  dimensions : Option Dimensions := none
  rawContent : Option String := none

/-- The context argument of `createMemoryEntry`. -/
structure CMContext where
  platform : Option String := none
  nameSpace : Option String := none
  conversationId : Option String := none
  turnId : Option String := none

/-- `inferTags`: language tags from character classes (the `[a-z]` test
runs on the original text, so upper-case-only English is missed), then
domain tags from keyword alternations tested against the lower-cased
text (so the `UI`/`UX` needles can never match); `['general']` when
nothing fires. -/
def inferTags (text : String) : List String :=
  let textLower := jsToLower text
  let langTags :=
    (if text.data.any fun c => 'a' ≤ c ∧ c ≤ 'z' then ["english"] else []) ++
    (if text.data.any fun c => 0x4e00 ≤ c.toNat ∧ c.toNat ≤ 0x9fff then ["chinese"]
     else [])
  let domainTable : List (List String × String) :=
    [(["技术", "编程", "代码", "开发"], "tech"),
     (["设计", "UI", "UX", "视觉"], "design"),
     (["写作", "文章", "内容"], "writing"),
     (["商务", "商业", "营销"], "business"),
     (["个人", "生活", "习惯"], "personal")]
  let domainTags := (domainTable.filter fun row =>
    row.1.any fun k => strIncludes textLower k).map fun row => row.2
  let tags := langTags ++ domainTags
  if tags.length ≠ 0 then tags else ["general"]

/-- `createMemoryEntry(candidate, context)`: builds the canonical record,
but the `expiresAt` initializer evaluates `Date.now()()` — invoking the
number returned by `Date.now()` — so every call throws a `TypeError`
before a record can be returned.  `rand` stands for the random id
suffix. -/
def createMemoryEntry (c : Candidate) (ctx : CMContext) (now : ℤ) (rand : String) :
    Except String Memory := do
  let _dateNowValue ← jsInvoke (JsVal.num (now : ℚ))
  -- dead code from here on: the intended record, with the intended
  -- `expiresAt = now + 30 days`
  Except.ok
    { meta :=
      { id := "mem_" ++ toString now ++ "_" ++ rand
        version := "v1.0"
        platform := ctx.platform.getD "unknown"
        nameSpace := ctx.nameSpace.getD "default"
        tags := inferTags c.text
        dimensions := c.dimensions.getD
          { confidence := 0.7, importance := 0.6, time_decay := 0.8,
            recall_priority := 0.7 }
        relations :=
          { conversation_id := ctx.conversationId
            turn_id := ctx.turnId
            supersedes := none
            related_to := [] }
        lifecycle :=
          { createdAt := now
            updatedAt := now
            lastUsedAt := some now
            expiresAt := some (now + 30 * 24 * 60 * 60 * 1000)
            ttl := 30 * 24 * 60 * 60
            status := "active" }
        security := { sensitivity := "normal", masked := false, origin := "auto" } }
      body :=
      { type := if c.type = "" then "episodic" else c.type
        text := c.text
        raw_content := c.rawContent.getD "" } }

/-! ## Concrete fixtures used by the witnesses and counterexamples -/

/-- An active persona record for the conflict-resolution scenario. -/
def c1Existing : Memory :=
  { meta := { id := "mem_old", platform := "deepseek", nameSpace := "default" }
    body := { type := "persona", text := "i like python" } }

/-- A new record with text identical to `c1Existing`'s (Jaccard 1). -/
def c1New : Memory :=
  { meta := { id := "mem_new", platform := "deepseek", nameSpace := "default" }
    body := { type := "persona", text := "i like python" } }

/-- A record used by the `processTurn` scenarios. -/
def c2Mem : Memory := { meta := { id := "x2" }, body := {} }

/-- An active record whose `expiresAt` (100) is before the sweep time (200). -/
def c3Rec : Memory :=
  { meta := { id := "m3", platform := "deepseek", nameSpace := "default"
              lifecycle := { expiresAt := some 100, status := "active" } }
    body := {} }

/-- `c3Rec` after `cleanup`'s misdirected write to the stray `meta.status`. -/
def c3Upd : Memory :=
  { c3Rec with meta := { c3Rec.meta with status := some "expired" } }

/-- One day in milliseconds. -/
def dayMs : ℤ := 86400000

/-- A record last used at time 0 (with empty text, so tier compression is
the identity on it). -/
def c4Mem : Memory :=
  { meta := { id := "m4", lifecycle := { lastUsedAt := some 0 } }
    body := { text := "" } }

/-- The tiered store right after `add`ing `c4Mem` at time 0. -/
noncomputable def c4S1 : HStorage := (hstoreAdd 0 {} c4Mem).1

/-- The tiered store after the compression cycle runs 10 days later:
`c4Mem` now lives in the warm tier only, no longer mirrored in the hot
cache. -/
noncomputable def c4S2 : HStorage := runCompressionCycle (10 * dayMs) c4S1

/-- The engine configuration for the recall-threshold scenario: a
non-deepseek platform and the default 0.5 threshold. -/
noncomputable def c5Cfg : Config :=
  { gamma := 17 / 20, barrier := 1 / 2, recallThreshold := 1 / 2,
    platform := "chatgpt" }

/-- An active episodic record engineered so that its recall score is
exactly the 0.5 threshold: zero keyword overlap with the query `aa bb`,
`recall_priority` 0.4, no `lastUsedAt` (decay 1), platform weight 0.9. -/
noncomputable def c5Mem : Memory :=
  { meta := { id := "m5", platform := "chatgpt", nameSpace := "default"
              dimensions := { recall_priority := 2 / 5 }
              lifecycle := { lastUsedAt := none, status := "active" } }
    body := { type := "episodic", text := "cc dd" } }

/-- The retriever configuration for the raw-threshold scenario: barrier 1
and gamma 5 push the activation image of the raw score far below the
threshold 13/30. -/
noncomputable def c6Cfg : RetrieveConfig :=
  { gamma := 5, barrier := 1, threshold := 13 / 30, maxResults := 20 }

/-- An episodic record whose raw retrieval score against the query
`aa bb` is exactly 13/30. -/
noncomputable def c6Mem : Memory :=
  { meta := { id := "m6", dimensions := { recall_priority := 2 / 5 }
              lifecycle := { lastUsedAt := none } }
    body := { type := "episodic", text := "cc dd" } }

/-- A record carrying a stale `original_text` while its `text` is empty,
so `compress` leaves it untouched and `decompress` rewrites its text. -/
def c9Bad : Memory :=
  { meta := { id := "r0" }, body := { text := "", original_text := some "y" } }

/-- A fresh record (no `original_text`) with empty text. -/
def c9W : Memory := { meta := { id := "w9" }, body := { text := "" } }

/-- A scored record whose `body.type` is the empty string — falsy in
JavaScript, hence coerced to `episodic` by `cropMemories`. -/
noncomputable def c10Bad : Scored :=
  ({ meta := { id := "t0" }, body := { type := "" } }, 9 / 10)

/-- A scored persona record. -/
noncomputable def c10W : Scored :=
  ({ meta := { id := "p0" }, body := { type := "persona" } }, 1)

/-! ## Helper lemmas -/

theorem rdecide_eq_true {p : Prop} : (rdecide p = true) = p := by
  simp only [rdecide, decide_eq_true_eq]

theorem jsGtNum_num_zero : jsGtNum (JsVal.num 0) (8 / 10) = false := by
  simp only [jsGtNum, decide_eq_false_iff_not, not_lt]
  norm_num

theorem textSimilarityMeta_not_gt (a b : String) :
    jsGtNum (textSimilarityMeta a b) (8 / 10) = false := by
  unfold textSimilarityMeta
  split
  · exact jsGtNum_num_zero
  · dsimp only [jsArraySize, jsDiv]
    split
    · rfl
    · exact jsGtNum_num_zero

theorem handleConflictGo_eq (mem : Memory) (store : List Memory) (l : List Memory) :
    handleConflictGo mem store l = (store, mem, false) := by
  induction l with
  | nil => rfl
  | cons x rest ih =>
    unfold handleConflictGo
    rw [textSimilarityMeta_not_gt]
    simpa using ih

/-! ## Claim theorems -/

/-- C1: the conflict-resolution path never supersedes anything.  The
`textSimilarity` used by `handleConflict` reads `.size` from an Array,
producing `NaN`, and `NaN > 0.8` is `false`, so `handleConflict` is a
no-op on every store — even when the new record's text is identical to an
active record's (true Jaccard similarity 1, as the correctly written
`FileSystemStore.textSimilarity` confirms). -/
theorem c1_handleConflict_no_supersede :
    (∀ mem store, handleConflict mem store = (store, mem, false)) ∧
    fsTextSimilarity "i like python" "i like python" = 1 ∧
    handleConflict c1New [c1Existing] = ([c1Existing], c1New, false) := by
  refine ⟨fun mem store => handleConflictGo_eq mem store _, ?_,
    handleConflictGo_eq c1New [c1Existing] _⟩
  have hA : (jsSplitWs (jsToLower "i like python")).dedup = ["i", "like", "python"] := by
    decide
  simp only [fsTextSimilarity, hA]
  have h2 : (List.filter (fun x => List.contains ["i", "like", "python"] x)
      ["i", "like", "python"]).length = 3 := by decide
  have h3 : ((["i", "like", "python"] ++ ["i", "like", "python"]).dedup).length = 3 := by
    decide
  rw [h2, h3]
  norm_num

/-- C2 (amended): `processTurn` catches the first thrown phase into a
single `errors` entry and always returns the full result object, but the
phases after the failing one are skipped, not executed: a recall failure
leaves every later output empty, and an inject failure preserves the
recall output while leaving extraction and write empty. -/
theorem c2_amended (input response : String)
    (recallP : Except String (List Scored))
    (injectP : List Scored → Except String (List Scored))
    (extractP : Except String (List Memory))
    (writeP : List Memory → Except String (List Memory)) :
    (processTurn input response recallP injectP extractP writeP).errors.length ≤ 1 ∧
    ((processTurn input response recallP injectP extractP writeP).errors ≠ [] →
      (processTurn input response recallP injectP extractP writeP).written = []) ∧
    (∀ e, recallP = Except.error e →
      processTurn input response recallP injectP extractP writeP =
        { input := input, response := response, errors := [⟨"processTurn", e⟩] }) ∧
    (∀ e recs, recallP = Except.ok recs → injectP recs = Except.error e →
      processTurn input response recallP injectP extractP writeP =
        { input := input, response := response, recalled := recs,
          errors := [⟨"processTurn", e⟩] }) := by
  rcases hr : recallP with e | recs
  · refine ⟨by simp [processTurn], by simp [processTurn], ?_, ?_⟩
    · intro e2 he
      cases he
      simp [processTurn]
    · intro e2 recs he
      exact Except.noConfusion he
  · rcases hi : injectP recs with e | inj
    · refine ⟨by simp [processTurn, hi], by simp [processTurn, hi], ?_, ?_⟩
      · intro e2 he
        exact Except.noConfusion he
      · intro e2 recs2 he hi2
        cases he
        rw [hi] at hi2
        cases hi2
        simp [processTurn, hi]
    · rcases hx : extractP with e | ext
      · refine ⟨by simp [processTurn, hi, hx], by simp [processTurn, hi, hx], ?_, ?_⟩
        · intro e2 he
          exact Except.noConfusion he
        · intro e2 recs2 he hi2
          cases he
          rw [hi] at hi2
          exact Except.noConfusion hi2
      · rcases hw : writeP ext with e | w
        · refine ⟨by simp [processTurn, hi, hx, hw],
            by simp [processTurn, hi, hx, hw], ?_, ?_⟩
          · intro e2 he
            exact Except.noConfusion he
          · intro e2 recs2 he hi2
            cases he
            rw [hi] at hi2
            exact Except.noConfusion hi2
        · refine ⟨by simp [processTurn, hi, hx, hw],
            by simp [processTurn, hi, hx, hw], ?_, ?_⟩
          · intro e2 he
            exact Except.noConfusion he
          · intro e2 recs2 he hi2
            cases he
            rw [hi] at hi2
            exact Except.noConfusion hi2

/-- C2 (counterexample): with a failing recall phase and an extract phase
that would return a record, the turn result records the error but the
extract output stays empty — the later phase was not executed, contrary
to the claim. -/
theorem c2_counterexample :
    (processTurn "hi" "resp" (Except.error "store offline")
      (fun l => Except.ok l) (Except.ok [c2Mem]) (fun l => Except.ok l)).extracted
        = [] ∧
    (processTurn "hi" "resp" (Except.error "store offline")
      (fun l => Except.ok l) (Except.ok [c2Mem]) (fun l => Except.ok l)).errors.length
        = 1 ∧
    ([c2Mem] : List Memory) ≠ [] := by
  refine ⟨rfl, rfl, by simp⟩

/-- C2 (witness): the amended theorem applied to the concrete failing
recall phase. -/
theorem c2_witness :
    processTurn "hi" "resp" (Except.error "boom")
      (fun l => Except.ok l) (Except.ok ([] : List Memory)) (fun l => Except.ok l) =
      { input := "hi", response := "resp", errors := [⟨"processTurn", "boom"⟩] } :=
  (c2_amended "hi" "resp" (Except.error "boom") (fun l => Except.ok l)
    (Except.ok ([] : List Memory)) (fun l => Except.ok l)).2.2.1 "boom" rfl

/-- C3: `cleanup` at time 200 processes the expired record `c3Rec`
(`expiresAt` 100), but writes `expired` into the stray `meta.status`
field; the lifecycle status stays `active`, so the record still satisfies
the `status = 'active'` query that feeds recall. -/
theorem c3_cleanup_wrong_field :
    cleanup {} 200 [c3Rec] = [c3Upd] ∧
    query (cleanup {} 200 [c3Rec])
      { platform := some "deepseek", nameSpace := some "default",
        status := some "active" } = [c3Upd] ∧
    c3Upd.meta.lifecycle.status = "active" ∧
    c3Upd.meta.status = some "expired" := by
  exact ⟨rfl, rfl, rfl, rfl⟩

/-- C8: every call of `createMemoryEntry` throws: the `expiresAt`
initializer evaluates `Date.now()()`, invoking the number returned by
`Date.now()` as a function, a `TypeError`. -/
theorem c8_createMemoryEntry_throws (c : Candidate) (ctx : CMContext) (now : ℤ)
    (rand : String) :
    createMemoryEntry c ctx now rand =
      Except.error "TypeError: value is not a function" := rfl

theorem compress_of_text_empty (now : ℤ) (m : Memory) (level : Option ℕ)
    (h : m.body.text = "") : compress now m level = m := by
  unfold compress
  simp [h]

/-- C9 (amended): for every record that does not already carry a stale
`body.original_text`, compression followed by decompression restores
`body.text` exactly, at every compression level. -/
theorem c9_amended (now : ℤ) (m : Memory) (level : Option ℕ)
    (h : m.body.original_text = none) :
    (decompress (compress now m level)).body.text = m.body.text := by
  by_cases ht : m.body.text = ""
  · rw [compress_of_text_empty now m level ht]
    simp [decompress, h]
  · unfold compress
    rw [if_neg ht]
    dsimp only
    by_cases hL : effectiveLevel now m level = 0
    · rw [if_pos hL]
      simp [decompress, h]
    · rw [if_neg hL]
      simp [decompress]

/-- C9 (witness): the amended round trip at a concrete fresh record. -/
theorem c9_witness :
    c9W.body.original_text = none ∧
    (decompress (compress 0 c9W (some 2))).body.text = c9W.body.text :=
  ⟨rfl, c9_amended 0 c9W (some 2) rfl⟩

/-- C9 (counterexample): a record whose `body.text` is empty but which
carries `original_text = "y"` is returned unchanged by `compress`, and
`decompress` then rewrites its text to `y` — the round trip does not
restore `body.text`. -/
theorem c9_counterexample :
    (decompress (compress 0 c9Bad (some 2))).body.text ≠ c9Bad.body.text := by
  rw [compress_of_text_empty 0 c9Bad (some 2) rfl]
  decide

theorem usedGet_isSome {u : UsedCount} {t : String} {v : ℕ} (h : usedGet u t = some v) :
    t = "persona" ∨ t = "core" ∨ t = "episodic" := by
  unfold usedGet at h
  by_cases h1 : t = "persona"
  · exact Or.inl h1
  · by_cases h2 : t = "core"
    · exact Or.inr (Or.inl h2)
    · by_cases h3 : t = "episodic"
      · exact Or.inr (Or.inr h3)
      · rw [if_neg h1, if_neg h2, if_neg h3] at h
        cases h

theorem cropGo_mem {b : Budget} {p : Scored} :
    ∀ (l : List Scored) (u : UsedCount), p ∈ cropGo b l u →
      p.1.body.type = "" ∨
        p.1.body.type ∈ (["persona", "core", "episodic"] : List String) := by
  intro l
  induction l with
  | nil => intro u h; simp [cropGo] at h
  | cons q rest ih =>
    intro u h
    unfold cropGo at h
    dsimp only at h
    rcases hu : usedGet u (if q.1.body.type = "" then "episodic" else q.1.body.type)
      with _ | uv
    · rw [hu] at h
      exact ih _ h
    · rw [hu] at h
      dsimp only at h
      by_cases hlt : uv < (match budgetGet b
          (if q.1.body.type = "" then "episodic" else q.1.body.type) with
        | some v => if v = 0 then 6 else v
        | none => 6)
      · rw [if_pos hlt] at h
        rcases List.mem_cons.mp h with h | h
        · subst h
          by_cases hq : p.1.body.type = ""
          · exact Or.inl hq
          · refine Or.inr ?_
            have h3 := usedGet_isSome hu
            rw [if_neg hq] at h3
            simpa using h3
        · exact ih _ h
      · rw [if_neg hlt] at h
        exact ih _ h

/-- C10 (amended): `allocateBudget` only emits records typed `persona`,
`core`, or `episodic`; `cropMemories` additionally lets through records
whose type is the empty string (JavaScript-falsy, coerced to `episodic`
by `mem.body?.type || 'episodic'`), but no other unrecognized type and
never `pinned`. -/
theorem c10_amended (cfg : Config) (pool : List Scored) :
    (∀ p ∈ allocateBudget pool cfg.budget,
      p.1.body.type ∈ (["persona", "core", "episodic"] : List String)) ∧
    (∀ p ∈ cropMemories cfg pool,
      p.1.body.type = "" ∨
        p.1.body.type ∈ (["persona", "core", "episodic"] : List String)) := by
  constructor
  · intro p hp
    unfold allocateBudget at hp
    rcases List.mem_append.mp hp with h | h
    · rcases List.mem_append.mp h with h | h
      · have h2 := List.of_mem_filter (List.mem_of_mem_take h)
        simp only [decide_eq_true_eq] at h2
        simp [h2]
      · have h2 := List.of_mem_filter (List.mem_of_mem_take h)
        simp only [decide_eq_true_eq] at h2
        simp [h2]
    · have h2 := List.of_mem_filter (List.mem_of_mem_take h)
      simp only [decide_eq_true_eq] at h2
      simp [h2]
  · intro p hp
    exact cropGo_mem pool {} hp

/-- C10 (witness): the amended theorem applied to a persona record that
`cropMemories` keeps. -/
theorem c10_witness :
    c10W.1.body.type = "" ∨
      c10W.1.body.type ∈ (["persona", "core", "episodic"] : List String) :=
  (c10_amended {} [c10W]).2 c10W (List.mem_singleton.mpr rfl)

/-- C10 (counterexample): a record whose `body.type` is the empty string
is an unrecognized type, yet `cropMemories` includes it (coerced to the
`episodic` bucket), contradicting the claim that unrecognized types are
never included; `allocateBudget` does drop it. -/
theorem c10_counterexample :
    cropMemories {} [c10Bad] = [c10Bad] ∧
    c10Bad.1.body.type ∉ (["pinned", "persona", "core", "episodic"] : List String) ∧
    allocateBudget [c10Bad] ({} : Config).budget = [] := by
  refine ⟨rfl, by decide, rfl⟩

theorem exp_le_inv_one_sub {x : ℝ} (h1 : x < 1) : Real.exp x ≤ (1 - x)⁻¹ := by
  have hpos : 0 < 1 - x := by linarith
  have h2 : 1 - x ≤ Real.exp (-x) := by
    have h3 := Real.add_one_le_exp (-x)
    linarith
  have h3 : (1 - x) * Real.exp x ≤ Real.exp (-x) * Real.exp x :=
    mul_le_mul_of_nonneg_right h2 (Real.exp_pos x).le
  rw [← Real.exp_add, neg_add_cancel, Real.exp_zero] at h3
  rw [inv_eq_one_div, le_div_iff₀ hpos]
  nlinarith [h3]

theorem round4_nonneg {p : ℝ} (hp : 0 ≤ p) : 0 ≤ round4 p := by
  unfold round4
  have h : (0 : ℤ) ≤ ⌊p * 10000 + 1 / 2⌋ := Int.floor_nonneg.mpr (by linarith)
  have h2 : (0 : ℝ) ≤ (⌊p * 10000 + 1 / 2⌋ : ℤ) := by exact_mod_cast h
  positivity

theorem round4_le_one {p : ℝ} (hp : p < 1) : round4 p ≤ 1 := by
  unfold round4
  have h : ⌊p * 10000 + 1 / 2⌋ < 10001 := by
    rw [Int.floor_lt]
    push_cast
    linarith
  have h2 : ⌊p * 10000 + 1 / 2⌋ ≤ 10000 := by omega
  rw [div_le_one (by norm_num)]
  exact_mod_cast h2

theorem round4_mono {p q : ℝ} (h : p ≤ q) : round4 p ≤ round4 q := by
  unfold round4
  have h2 := Int.floor_mono (show p * 10000 + 1 / 2 ≤ q * 10000 + 1 / 2 by linarith)
  have h3 : ((⌊p * 10000 + 1 / 2⌋ : ℤ) : ℝ) ≤ ((⌊q * 10000 + 1 / 2⌋ : ℤ) : ℝ) := by
    exact_mod_cast h2
  gcongr

theorem round4_eq_half {p : ℝ} (hl : 49995 / 100000 ≤ p) (hu : p < 50005 / 100000) :
    round4 p = 1 / 2 := by
  unfold round4
  have h : ⌊p * 10000 + 1 / 2⌋ = 5000 := by
    rw [Int.floor_eq_iff]
    push_cast
    constructor <;> linarith
  rw [h]
  norm_num

theorem sigmoid_pos (e : ℝ) : 0 < 1 / (1 + Real.exp e) := by positivity

theorem sigmoid_lt_one (e : ℝ) : 1 / (1 + Real.exp e) < 1 := by
  rw [div_lt_one (by positivity)]
  linarith [Real.exp_pos e]

theorem sigmoid_anti {e f : ℝ} (h : e ≤ f) :
    1 / (1 + Real.exp f) ≤ 1 / (1 + Real.exp e) := by
  exact one_div_le_one_div_of_le (by positivity) (by linarith [Real.exp_le_exp.mpr h])

/-- C7 (amended): on inputs in [0,1] and any positive gamma, `v5Formula`
stays in [0,1], is monotonically non-decreasing in its input (the
4-decimal rounding destroys strictness), and returns exactly 0.5 when the
input equals the barrier. -/
theorem c7_amended (input gamma barrier y : ℝ) (hg : 0 < gamma)
    (h0 : 0 ≤ input) (h1 : input ≤ 1) (hy : input ≤ y) :
    0 ≤ v5Formula input gamma barrier ∧
    v5Formula input gamma barrier ≤ 1 ∧
    v5Formula input gamma barrier ≤ v5Formula y gamma barrier ∧
    (input = barrier → v5Formula input gamma barrier = 1 / 2) := by
  unfold v5Formula
  dsimp only
  refine ⟨round4_nonneg (sigmoid_pos _).le, round4_le_one (sigmoid_lt_one _), ?_, ?_⟩
  · apply round4_mono
    apply sigmoid_anti
    have hc : max 0 (min 1 input) ≤ max 0 (min 1 y) :=
      max_le_max (le_refl 0) (min_le_min (le_refl 1) hy)
    nlinarith [hc]
  · intro hb
    subst hb
    have hclamp : max 0 (min 1 input) = input := by
      rw [min_eq_right h1, max_eq_right h0]
    rw [hclamp, sub_self, mul_zero, Real.exp_zero]
    have hhalf : (1 : ℝ) / (1 + 1) = 1 / 2 := by norm_num
    rw [hhalf]
    exact round4_eq_half (by norm_num) (by norm_num)

/-- C7 (witness): the amended theorem at gamma 1, barrier 0.5, input 0.5. -/
theorem c7_witness :
    0 ≤ v5Formula (1 / 2) 1 (1 / 2) ∧ v5Formula (1 / 2) 1 (1 / 2) ≤ 1 ∧
    v5Formula (1 / 2) 1 (1 / 2) = 1 / 2 := by
  have h := c7_amended (1 / 2) 1 (1 / 2) 1 one_pos (by norm_num) (by norm_num)
    (by norm_num)
  exact ⟨h.1, h.2.1, h.2.2.2 rfl⟩

/-- C7 (counterexample): with the positive gamma 0.0001 the whole [0,1]
range of the sigmoid rounds to 0.5000, so the inputs 0 and 1 produce the
same output — `v5Formula` is not strictly increasing on [0,1]. -/
theorem c7_counterexample :
    (0 : ℝ) < 1 / 10000 ∧ (0 : ℝ) < 1 ∧
    v5Formula 0 (1 / 10000) (1 / 2) = v5Formula 1 (1 / 10000) (1 / 2) := by
  have hexp1 : (1 : ℝ) ≤ Real.exp (1 / 10000) := by
    linarith [Real.add_one_le_exp ((1 : ℝ) / 10000)]
  have e1 : v5Formula 0 (1 / 10000) (1 / 2) = 1 / 2 := by
    unfold v5Formula
    dsimp only
    rw [show max 0 (min 1 (0 : ℝ)) = 0 by norm_num,
      show (-2 : ℝ) * (1 / 10000) * (0 - 1 / 2) = 1 / 10000 by norm_num]
    apply round4_eq_half
    · have hub : Real.exp (1 / 10000) ≤ (1 - 1 / 10000)⁻¹ :=
        exp_le_inv_one_sub (by norm_num)
      have hub2 : Real.exp (1 / 10000) ≤ 10000 / 9999 := by
        calc Real.exp (1 / 10000) ≤ (1 - 1 / 10000)⁻¹ := hub
        _ = 10000 / 9999 := by norm_num
      have hd : (0 : ℝ) < 1 + Real.exp (1 / 10000) := by positivity
      have h5 : 1 / ((19999 : ℝ) / 9999) ≤ 1 / (1 + Real.exp (1 / 10000)) :=
        one_div_le_one_div_of_le hd (by linarith)
      calc (49995 : ℝ) / 100000 ≤ 1 / ((19999 : ℝ) / 9999) := by norm_num
      _ ≤ 1 / (1 + Real.exp (1 / 10000)) := h5
    · have h5 : 1 / (1 + Real.exp (1 / 10000)) ≤ 1 / 2 :=
        one_div_le_one_div_of_le (by norm_num) (by linarith)
      calc 1 / (1 + Real.exp (1 / 10000)) ≤ 1 / 2 := h5
      _ < 50005 / 100000 := by norm_num
  have e2 : v5Formula 1 (1 / 10000) (1 / 2) = 1 / 2 := by
    unfold v5Formula
    dsimp only
    rw [show max 0 (min 1 (1 : ℝ)) = 1 by norm_num,
      show (-2 : ℝ) * (1 / 10000) * (1 - 1 / 2) = -(1 / 10000) by norm_num]
    have hinv : Real.exp (-(1 / 10000)) = (Real.exp (1 / 10000))⁻¹ := Real.exp_neg _
    have hle1 : Real.exp (-(1 / 10000)) ≤ 1 := by
      rw [hinv]
      exact inv_le_one_of_one_le₀ hexp1
    have hge : (9999 : ℝ) / 10000 ≤ Real.exp (-(1 / 10000)) := by
      have h6 := Real.add_one_le_exp (-((1 : ℝ) / 10000))
      linarith
    apply round4_eq_half
    · have h5 : 1 / (2 : ℝ) ≤ 1 / (1 + Real.exp (-(1 / 10000))) :=
        one_div_le_one_div_of_le (by positivity) (by linarith)
      calc (49995 : ℝ) / 100000 ≤ 1 / 2 := by norm_num
      _ ≤ 1 / (1 + Real.exp (-(1 / 10000))) := h5
    · have h5 : 1 / (1 + Real.exp (-(1 / 10000))) ≤ 1 / ((19999 : ℝ) / 10000) :=
        one_div_le_one_div_of_le (by norm_num) (by linarith)
      calc 1 / (1 + Real.exp (-(1 / 10000))) ≤ 1 / ((19999 : ℝ) / 10000) := h5
      _ < 50005 / 100000 := by norm_num
  exact ⟨by norm_num, by norm_num, by rw [e1, e2]⟩

theorem countTypeS_append (a b : List Scored) (t : String) :
    countTypeS (a ++ b) t = countTypeS a t + countTypeS b t := by
  unfold countTypeS
  rw [List.filter_append, List.length_append]

theorem countTypeS_bucket_self (l : List Scored) (n : ℕ) (s : String) :
    countTypeS ((l.filter fun p => p.1.body.type = s).take n) s ≤ n := by
  unfold countTypeS
  calc (List.filter (fun p => decide (p.1.body.type = s))
      ((l.filter fun p => p.1.body.type = s).take n)).length
      ≤ ((l.filter fun p => p.1.body.type = s).take n).length :=
        List.length_filter_le _ _
    _ ≤ n := List.length_take_le _ _

theorem countTypeS_bucket_other (l : List Scored) (n : ℕ) {s t : String}
    (h : t ≠ s) :
    countTypeS ((l.filter fun p => p.1.body.type = s).take n) t = 0 := by
  unfold countTypeS
  rw [List.length_eq_zero]
  apply List.filter_eq_nil_iff.mpr
  intro a ha
  have h2 := List.of_mem_filter (List.mem_of_mem_take ha)
  simp only [decide_eq_true_eq] at h2 ⊢
  rw [h2]
  exact fun heq => h heq.symm

theorem allocateBudget_counts (l : List Scored) (b : Budget) :
    countTypeS (allocateBudget l b) "persona" ≤ b.persona ∧
    countTypeS (allocateBudget l b) "core" ≤ b.core ∧
    countTypeS (allocateBudget l b) "episodic" ≤ b.episodic ∧
    ∀ t, t ≠ "persona" → t ≠ "core" → t ≠ "episodic" →
      countTypeS (allocateBudget l b) t = 0 := by
  unfold allocateBudget
  refine ⟨?_, ?_, ?_, ?_⟩
  · rw [countTypeS_append, countTypeS_append,
      countTypeS_bucket_other l b.core (by decide),
      countTypeS_bucket_other l b.episodic (by decide)]
    simpa using countTypeS_bucket_self l b.persona "persona"
  · rw [countTypeS_append, countTypeS_append,
      countTypeS_bucket_other l b.persona (by decide),
      countTypeS_bucket_other l b.episodic (by decide)]
    simpa using countTypeS_bucket_self l b.core "core"
  · rw [countTypeS_append, countTypeS_append,
      countTypeS_bucket_other l b.persona (by decide),
      countTypeS_bucket_other l b.core (by decide)]
    simpa using countTypeS_bucket_self l b.episodic "episodic"
  · intro t h1 h2 h3
    rw [countTypeS_append, countTypeS_append,
      countTypeS_bucket_other l b.persona h1,
      countTypeS_bucket_other l b.core h2,
      countTypeS_bucket_other l b.episodic h3]

theorem mem_of_mem_allocateBudget {l : List Scored} {b : Budget} {p : Scored}
    (h : p ∈ allocateBudget l b) : p ∈ l := by
  unfold allocateBudget at h
  rcases List.mem_append.mp h with h | h
  · rcases List.mem_append.mp h with h | h
    · exact List.mem_of_mem_filter (List.mem_of_mem_take h)
    · exact List.mem_of_mem_filter (List.mem_of_mem_take h)
  · exact List.mem_of_mem_filter (List.mem_of_mem_take h)

/-- C5 (amended): every record emitted by the engine's recall meets or
exceeds (`>=`) the recall threshold, and the output carries at most
`budget[type]` records of each of the three budgeted types and none of
any other type. -/
theorem c5_amended (cfg : Config) (now : ℤ) (input : String) (store : List Memory) :
    (∀ p ∈ engineRecall cfg now input store, cfg.recallThreshold ≤ p.2) ∧
    countTypeS (engineRecall cfg now input store) "persona" ≤ cfg.budget.persona ∧
    countTypeS (engineRecall cfg now input store) "core" ≤ cfg.budget.core ∧
    countTypeS (engineRecall cfg now input store) "episodic" ≤ cfg.budget.episodic ∧
    (∀ t, t ≠ "persona" → t ≠ "core" → t ≠ "episodic" →
      countTypeS (engineRecall cfg now input store) t = 0) := by
  unfold engineRecall
  dsimp only
  refine ⟨?_, (allocateBudget_counts _ _).1, (allocateBudget_counts _ _).2.1,
    (allocateBudget_counts _ _).2.2.1, (allocateBudget_counts _ _).2.2.2⟩
  intro p hp
  have h1 := mem_of_mem_allocateBudget hp
  have h2 := List.mem_mergeSort.mp h1
  have h3 := List.of_mem_filter h2
  rw [rdecide_eq_true] at h3
  exact h3

theorem c5_keyword_zero : calculateKeywordSimilarity "aa bb" "cc dd" = 0 := by
  unfold calculateKeywordSimilarity
  rw [if_neg (by decide)]
  dsimp only
  rw [if_neg (by decide)]
  rw [show ((normalizeText "aa bb").dedup.filter fun x =>
    (normalizeText "cc dd").dedup.contains x).dedup.length = 0 from by decide]
  norm_num

theorem c5_score : calculateRecallScore "aa bb" c5Mem 0 (17 / 20) (1 / 2) = 1 / 2 := by
  unfold calculateRecallScore
  rw [show c5Mem.body.text = "cc dd" from rfl,
    show c5Mem.meta.lifecycle.lastUsedAt = (none : Option ℤ) from rfl,
    show c5Mem.meta.dimensions.recall_priority = (2 : ℝ) / 5 from rfl,
    show c5Mem.meta.platform = "chatgpt" from rfl]
  dsimp only
  rw [c5_keyword_zero, show calculateTimeDecay 0 (none : Option ℤ) 7 = 1 from rfl]
  unfold jsOrNum
  rw [if_neg (by norm_num : ¬((2 : ℝ) / 5 = 0)),
    if_neg (by decide : ¬("chatgpt" = "deepseek"))]
  rw [show ((0 : ℚ) : ℝ) * 0.3 + (2 : ℝ) / 5 * 0.3 + (1 : ℝ) * 0.2 + (0.9 : ℝ) * 0.2
      = 1 / 2 by push_cast; ring_nf]
  unfold v5Formula
  dsimp only
  rw [show max 0 (min 1 ((1 : ℝ) / 2)) = 1 / 2 by norm_num,
    show (-2 : ℝ) * (17 / 20) * (1 / 2 - 1 / 2) = 0 by ring, Real.exp_zero]
  have hhalf : (1 : ℝ) / (1 + 1) = 1 / 2 := by norm_num
  rw [hhalf]
  exact round4_eq_half (by norm_num) (by norm_num)

theorem c5_recall_eval :
    engineRecall c5Cfg 0 "aa bb" [c5Mem] = [(c5Mem, 1 / 2)] := by
  unfold engineRecall
  dsimp only
  rw [show query [c5Mem]
      { status := some "active", platform := some c5Cfg.platform,
        nameSpace := some c5Cfg.nameSpace, type := none } = [c5Mem] from rfl]
  dsimp only [List.map]
  rw [show c5Cfg.gamma = 17 / 20 from rfl, show c5Cfg.barrier = 1 / 2 from rfl,
    c5_score]
  rw [List.filter_cons]
  rw [if_pos (show rdecide (c5Cfg.recallThreshold ≤ ((c5Mem, (1 : ℝ) / 2) : Scored).2)
      = true by
    rw [rdecide_eq_true]
    show c5Cfg.recallThreshold ≤ 1 / 2
    rw [show c5Cfg.recallThreshold = 1 / 2 from rfl])]
  rw [List.filter_nil, List.mergeSort_singleton]
  rfl

/-- C5 (counterexample): the engineered record scores exactly the recall
threshold (0.5) and is included in the recall output, so output records
are not guaranteed to strictly exceed `recallThreshold` — the filter is
`>=`, not `>`. -/
theorem c5_counterexample :
    ((c5Mem, (1 : ℝ) / 2) : Scored) ∈ engineRecall c5Cfg 0 "aa bb" [c5Mem] ∧
    c5Cfg.recallThreshold = 1 / 2 ∧
    ¬(c5Cfg.recallThreshold < ((c5Mem, (1 : ℝ) / 2) : Scored).2) := by
  refine ⟨?_, rfl, ?_⟩
  · rw [c5_recall_eval]
    exact List.mem_singleton.mpr rfl
  · rw [show c5Cfg.recallThreshold = 1 / 2 from rfl]
    norm_num

/-- C5 (witness): the amended theorem instantiated at the concrete
engine configuration and store. -/
theorem c5_witness :
    c5Cfg.recallThreshold ≤ ((c5Mem, (1 : ℝ) / 2) : Scored).2 ∧
    countTypeS (engineRecall c5Cfg 0 "aa bb" [c5Mem]) "pinned" = 0 := by
  refine ⟨(c5_amended c5Cfg 0 "aa bb" [c5Mem]).1 (c5Mem, 1 / 2) ?_,
    (c5_amended c5Cfg 0 "aa bb" [c5Mem]).2.2.2.2 "pinned" (by decide) (by decide)
      (by decide)⟩
  rw [c5_recall_eval]
  exact List.mem_singleton.mpr rfl

theorem round4_le_add (p : ℝ) : round4 p ≤ p + 1 / 20000 := by
  unfold round4
  have h := Int.floor_le (p * 10000 + 1 / 2)
  rw [div_le_iff₀ (by norm_num : (0 : ℝ) < 10000)]
  linarith

/-- C6 (amended): every record returned by `retrieveMemories` satisfies
the threshold on its RAW `recallScore`, that raw score coincides with the
spec's weighted sum (35/25/20/10 plus a type term normalized by 3, with
constant platform weight 1), and the activation image is only attached as
`v5Probability` — ranking and thresholding never consult it. -/
theorem c6_amended (cfg : RetrieveConfig) (now : ℤ) (input : String)
    (memories : List Memory) (tp : String → Option ℝ) :
    ∀ p ∈ retrieveMemories cfg now input memories tp,
      cfg.threshold ≤ p.2.1 ∧
      p.2.1 = specRecallRaw input p.1 now 1 (tpGet tp p.1.body.type 1 / 3) ∧
      p.2.2 = v5Formula p.2.1 cfg.gamma cfg.barrier := by
  intro p hp
  unfold retrieveMemories at hp
  by_cases h0 : input = "" ∨ memories.length = 0
  · rw [if_pos h0] at hp
    simp at hp
  · rw [if_neg h0] at hp
    dsimp only at hp
    have h1 := List.mem_of_mem_take hp
    have h2 := List.mem_mergeSort.mp h1
    have h3 := List.of_mem_filter h2
    have h4 := List.mem_of_mem_filter h2
    rw [rdecide_eq_true] at h3
    rcases List.mem_map.mp h4 with ⟨m, _, hpe⟩
    subst hpe
    refine ⟨h3, ?_, rfl⟩
    unfold retrieverRecallScore specRecallRaw
    dsimp only

theorem c6_raw : retrieverRecallScore "aa bb" c6Mem 0 defaultTypePriority = 13 / 30 := by
  unfold retrieverRecallScore
  rw [show c6Mem.body.text = "cc dd" from rfl,
    show c6Mem.meta.lifecycle.lastUsedAt = (none : Option ℤ) from rfl,
    show c6Mem.meta.dimensions.recall_priority = (2 : ℝ) / 5 from rfl,
    show c6Mem.body.type = "episodic" from rfl]
  dsimp only
  rw [c5_keyword_zero, show calculateTimeDecay 0 (none : Option ℤ) 7 = 1 from rfl]
  have htp : tpGet defaultTypePriority "episodic" 1 = 1 := by
    unfold tpGet
    rw [show defaultTypePriority "episodic" = some (1 : ℝ) from rfl]
    dsimp only
    rw [if_neg (by norm_num : ¬((1 : ℝ) = 0))]
  rw [htp]
  unfold jsOrNum
  rw [if_neg (by norm_num : ¬((2 : ℝ) / 5 = 0))]
  push_cast
  ring_nf

theorem c6_eval :
    retrieveMemories c6Cfg 0 "aa bb" [c6Mem] defaultTypePriority =
      [(c6Mem, 13 / 30, v5Formula (13 / 30) c6Cfg.gamma c6Cfg.barrier)] := by
  unfold retrieveMemories
  rw [if_neg (by simp)]
  dsimp only [List.map]
  rw [c6_raw]
  rw [List.filter_cons,
    if_pos (show rdecide (c6Cfg.threshold ≤
        ((c6Mem, 13 / 30, v5Formula (13 / 30) c6Cfg.gamma c6Cfg.barrier) :
          Retrieved).2.1) = true by
      rw [rdecide_eq_true]
      show c6Cfg.threshold ≤ 13 / 30
      rw [show c6Cfg.threshold = 13 / 30 from rfl]),
    List.filter_nil, List.mergeSort_singleton]
  rfl

theorem c6_activation_lt :
    v5Formula (13 / 30) c6Cfg.gamma c6Cfg.barrier < c6Cfg.threshold := by
  rw [show c6Cfg.gamma = 5 from rfl, show c6Cfg.barrier = 1 from rfl,
    show c6Cfg.threshold = 13 / 30 from rfl]
  unfold v5Formula
  dsimp only
  rw [show max 0 (min 1 ((13 : ℝ) / 30)) = 13 / 30 by norm_num,
    show (-2 : ℝ) * 5 * (13 / 30 - 1) = 17 / 3 by norm_num]
  have hexp : (20 : ℝ) / 3 ≤ Real.exp (17 / 3) := by
    have h := Real.add_one_le_exp ((17 : ℝ) / 3)
    linarith
  have hp : 1 / (1 + Real.exp (17 / 3)) ≤ 3 / 23 := by
    have h := one_div_le_one_div_of_le (show (0 : ℝ) < 23 / 3 by norm_num)
      (by linarith : (23 : ℝ) / 3 ≤ 1 + Real.exp (17 / 3))
    calc 1 / (1 + Real.exp (17 / 3)) ≤ 1 / ((23 : ℝ) / 3) := h
      _ = 3 / 23 := by norm_num
  calc round4 (1 / (1 + Real.exp (17 / 3)))
      ≤ 1 / (1 + Real.exp (17 / 3)) + 1 / 20000 := round4_le_add _
    _ ≤ 3 / 23 + 1 / 20000 := by linarith
    _ < 13 / 30 := by norm_num

/-- C6 (counterexample): in `retrieveMemories`, a record whose raw
weighted score equals the threshold 13/30 is returned even though the
activation image of that score is far below the threshold — the final
probability used for thresholding is the raw sum, not the activation
output. -/
theorem c6_counterexample :
    ((c6Mem, 13 / 30, v5Formula (13 / 30) c6Cfg.gamma c6Cfg.barrier) : Retrieved) ∈
      retrieveMemories c6Cfg 0 "aa bb" [c6Mem] defaultTypePriority ∧
    v5Formula (13 / 30) c6Cfg.gamma c6Cfg.barrier < c6Cfg.threshold := by
  constructor
  · rw [c6_eval]
    exact List.mem_singleton.mpr rfl
  · exact c6_activation_lt

/-- C6 (witness): the amended theorem at the concrete retrieval. -/
theorem c6_witness :
    c6Cfg.threshold ≤
      ((c6Mem, 13 / 30, v5Formula (13 / 30) c6Cfg.gamma c6Cfg.barrier) :
        Retrieved).2.1 ∧
    ((c6Mem, 13 / 30, v5Formula (13 / 30) c6Cfg.gamma c6Cfg.barrier) :
        Retrieved).2.1 =
      specRecallRaw "aa bb" c6Mem 0 1 (tpGet defaultTypePriority c6Mem.body.type 1 / 3) := by
  have h := c6_amended c6Cfg 0 "aa bb" [c6Mem] defaultTypePriority
    (c6Mem, 13 / 30, v5Formula (13 / 30) c6Cfg.gamma c6Cfg.barrier)
    (by rw [c6_eval]; exact List.mem_singleton.mpr rfl)
  exact ⟨h.1, h.2.1⟩

/-- C4: a record 40 days past its `lastUsedAt` is indeed classified
`cold`; but `get` on a record that lives in the warm tier without being
mirrored in the hot cache (the state every compression-cycle demotion
produces) returns nothing and performs no promotion: `migrateToTier`
requires the record in the hot cache, so the record stays in the warm
tier with `storage_tier = warm`, contradicting the promised
promotion-to-hot. -/
theorem c4_get_no_promotion :
    determineTier (40 * dayMs) c4Mem = "cold" ∧
    c4S2.hotCache = [] ∧
    (c4S2.warm.map fun m => (m.meta.id, m.meta.storage_tier)) =
      [("m4", some "warm")] ∧
    hstoreGet (10 * dayMs) c4S2 "m4" = (c4S2, none) := by
  exact ⟨rfl, rfl, rfl, rfl⟩

end V5
